import Mathlib

/-!
Verification of the aggregation core of the Market Confidence repository.

Python floats are modelled as rationals (`ℚ`); every probability handled by
the modelled fragment is produced by a clamp into `[0, 1]`, so `NaN` and the
infinities do not arise (`math.isfinite` is therefore identically true on
the model, see `isfinite` below).  A Python function that can raise
`ZeroDivisionError` is modelled as returning `Option ℚ`, `none` standing for
the raising branch.  `math.sqrt` is not rational-valued, so it is passed to
the indicator service as an explicit function parameter `sqrtf`; every
theorem below holds for all choices of `sqrtf`.  Python dictionaries are
modelled as association lists in insertion order (configuration tables,
result maps) or as functions `String → Option _` (the mutable cache
stores).  `time.time()` is an external collaborator passed explicitly as a
`now : ℚ` argument; network fetches are passed as function arguments.
-/

/- ### src/utils/normalize.py -/

/-- Embeds `_clip`: `max(min_value, min(max_value, value))`. -/
def _clip (value min_value max_value : ℚ) : ℚ :=
  max min_value (min max_value value)

/-- Embeds `normalize_momentum`.  The Python body computes
`(clipped - min_return) / (max_return - min_return)`; when
`max_return - min_return == 0` the float division raises
`ZeroDivisionError`, modelled here by `none`. -/
def normalize_momentum (return_pct : ℚ)
    (min_return : ℚ := -0.20) (max_return : ℚ := 0.20) : Option ℚ :=
  if max_return - min_return = 0 then none
  else some ((_clip return_pct min_return max_return - min_return) /
             (max_return - min_return))

/-- Embeds `normalize_trend`; same raising division as
`normalize_momentum`, with bounds `min_ratio`/`max_ratio`. -/
def normalize_trend (price_vs_ma_ratio : ℚ)
    (min_ratio : ℚ := 0.9) (max_ratio : ℚ := 1.1) : Option ℚ :=
  if max_ratio - min_ratio = 0 then none
  else some ((_clip price_vs_ma_ratio min_ratio max_ratio - min_ratio) /
             (max_ratio - min_ratio))

/-- Embeds `normalize_volatility`; raising division modelled as for the
other two normalizers. -/
def normalize_volatility (stdev_pct : ℚ)
    (low_vol : ℚ := 0.05) (high_vol : ℚ := 0.40)
    (invert : Bool := true) : Option ℚ :=
  if high_vol - low_vol = 0 then none
  else
    let clipped := _clip stdev_pct low_vol high_vol
    let raw := (clipped - low_vol) / (high_vol - low_vol)
    some (if invert then 1 - raw else raw)

/-- Embeds `normalize_polymarket_probability`: inputs above `1` are divided
by `100`, then the result is clipped into `[0, 1]`. -/
def normalize_polymarket_probability (probability : ℚ) : ℚ :=
  let p := if probability > 1 then probability / 100 else probability
  _clip p 0 1

/-- Embeds `to_percentage`. -/
def to_percentage (score_0_1 : ℚ) : ℚ :=
  _clip score_0_1 0 1 * 100

/- ### src/services/market_data_service.py (data type only; the fetchers
are external collaborators) -/

/-- Embeds the `MarketDataPoint` pydantic model. -/
structure MarketDataPoint where
  timestamp : ℤ
  price : ℚ
deriving DecidableEq

/- ### src/services/indicator_service.py -/

/-- Embeds `_percent_change`: `0` when `old == 0`, else
`(new - old) / old`. -/
def _percent_change (old new : ℚ) : ℚ :=
  if old = 0 then 0 else (new - old) / old

/-- Embeds `_moving_average`: `0` on an empty list, else the mean. -/
def _moving_average (prices : List ℚ) : ℚ :=
  if prices = [] then 0 else prices.sum / prices.length

/-- Embeds `_stdev`: `0` for fewer than 2 values, else the square root of
the sample variance.  `math.sqrt` is the explicit parameter `sqrtf`. -/
def _stdev (sqrtf : ℚ → ℚ) (prices : List ℚ) : ℚ :=
  if prices.length < 2 then 0
  else
    let mean := _moving_average prices
    let var := (prices.map (fun p => (p - mean) ^ 2)).sum /
               ((prices.length : ℚ) - 1)
    sqrtf var

/-- Embeds the `Indicators` pydantic model. -/
structure Indicators where
  momentum : ℚ
  trend : ℚ
  volatility : ℚ
deriving DecidableEq

/-- Embeds `compute_indicators`.  The loop
`for i in range(1, len(prices))` building the period-over-period returns is
rendered as a map over adjacent pairs. -/
def compute_indicators (sqrtf : ℚ → ℚ)
    (series : List MarketDataPoint) : Option Indicators :=
  if series.length < 2 then none
  else
    let prices := series.map (fun p => p.price)
    let first_price := prices.headD 0
    let last_price := prices.getLastD 0
    let raw_return := _percent_change first_price last_price
    match normalize_momentum raw_return with
    | none => none
    | some norm_momentum =>
      let ma := _moving_average prices
      let price_vs_ma := if ma = 0 then 1 else last_price / ma
      match normalize_trend price_vs_ma with
      | none => none
      | some norm_trend =>
        let daily_returns :=
          (prices.zip prices.tail).map (fun ab => _percent_change ab.1 ab.2)
        let stdev_returns := _stdev sqrtf daily_returns
        match normalize_volatility stdev_returns with
        | none => none
        | some norm_vol =>
          some { momentum := norm_momentum, trend := norm_trend,
                 volatility := norm_vol }

/- ### src/config/assets.py -/

/-- Embeds the `DataSource` enum. -/
inductive DataSource where
  | COINGECKO
  | YFINANCE
  | POLYMARKET
deriving DecidableEq

/-- Embeds the `AssetCategory` enum. -/
inductive AssetCategory where
  | EQUITIES
  | CRYPTO
  | GOLD
  | BONDS
  | HOUSING
  | USD
  | POLYMARKET_SENTIMENT
deriving DecidableEq

/-- Embeds the string value carried by each `AssetCategory` member. -/
def AssetCategory.value : AssetCategory → String
  | .EQUITIES => "equities"
  | .CRYPTO => "crypto"
  | .GOLD => "gold"
  | .BONDS => "bonds"
  | .HOUSING => "housing"
  | .USD => "usd"
  | .POLYMARKET_SENTIMENT => "polymarket_sentiment"

/-- Embeds the `AssetConfig` pydantic model. -/
structure AssetConfig where
  id : String
  name : String
  category : AssetCategory
  data_source : DataSource
  coingecko_id : Option String := none
  yfinance_symbol : Option String := none
  display_order : ℤ := 0
deriving DecidableEq

/-- Embeds the `PolymarketDirection` enum. -/
inductive PolymarketDirection where
  | POSITIVE
  | NEGATIVE
deriving DecidableEq

/-- Embeds the `PolymarketMarketConfig` pydantic model. -/
structure PolymarketMarketConfig where
  id : String
  name : String
  slug : String
  direction : PolymarketDirection
  impact_weight : ℚ := 1
deriving DecidableEq

/-- Embeds the `ASSETS` dict (insertion order preserved). -/
def ASSETS : List (String × AssetConfig) :=
  [ ("spy", { id := "spy", name := "S&P 500 (SPY)",
              category := .EQUITIES, data_source := .YFINANCE,
              yfinance_symbol := some "SPY", display_order := 1 }),
    ("qqq", { id := "qqq", name := "NASDAQ 100 (QQQ)",
              category := .EQUITIES, data_source := .YFINANCE,
              yfinance_symbol := some "QQQ", display_order := 2 }),
    ("xlk", { id := "xlk", name := "Tech Sector (XLK)",
              category := .EQUITIES, data_source := .YFINANCE,
              yfinance_symbol := some "XLK", display_order := 3 }),
    ("btc", { id := "btc", name := "Bitcoin",
              category := .CRYPTO, data_source := .COINGECKO,
              coingecko_id := some "bitcoin", display_order := 1 }),
    ("gld", { id := "gld", name := "Gold (GLD)",
              category := .GOLD, data_source := .YFINANCE,
              yfinance_symbol := some "GLD", display_order := 1 }),
    ("tlt", { id := "tlt", name := "US Long-Term Treasuries (TLT)",
              category := .BONDS, data_source := .YFINANCE,
              yfinance_symbol := some "TLT", display_order := 1 }),
    ("xhb", { id := "xhb", name := "Housing (XHB)",
              category := .HOUSING, data_source := .YFINANCE,
              yfinance_symbol := some "XHB", display_order := 1 }),
    ("uup", { id := "uup", name := "US Dollar Index (UUP)",
              category := .USD, data_source := .YFINANCE,
              yfinance_symbol := some "UUP", display_order := 1 }) ]

/-- Models one step of the Python loop that fills `CATEGORY_TO_ASSETS`:
`CATEGORY_TO_ASSETS.setdefault(a.category, []).append(a.id)` on an
insertion-ordered dict. -/
def _setdefault_append (m : List (AssetCategory × List String))
    (c : AssetCategory) (aid : String) : List (AssetCategory × List String) :=
  if (m.lookup c).isSome then
    m.map (fun e => if e.1 = c then (e.1, e.2 ++ [aid]) else e)
  else m ++ [(c, [aid])]

/-- Embeds the `CATEGORY_TO_ASSETS` dict, built by the module-level loop
over `ASSETS.values()`. -/
def CATEGORY_TO_ASSETS : List (AssetCategory × List String) :=
  ASSETS.foldl (fun m e => _setdefault_append m e.2.category e.2.id) []

/-- Embeds the `POLYMARKET_MARKETS` dict (one active entry; the others are
commented out in the source). -/
def POLYMARKET_MARKETS : List (String × PolymarketMarketConfig) :=
  [ ("recession_2025",
     { id := "bitcoin_today",
       name := "Bitcoin Up or Down on November 16?",
       slug := "bitcoin-up-or-down-on-november-16",
       direction := .POSITIVE,
       impact_weight := 1 }) ]

/- ### src/config/weights.py -/

/-- Embeds the `AssetWeightConfig` pydantic model. -/
structure AssetWeightConfig where
  asset_id : String
  weight : ℚ
deriving DecidableEq

/-- Embeds the `CategoryWeightConfig` pydantic model. -/
structure CategoryWeightConfig where
  category : AssetCategory
  weight : ℚ
deriving DecidableEq

/-- Embeds the `PolymarketWeights` pydantic model with its defaults. -/
structure PolymarketWeights where
  overall_sentiment_weight : ℚ := 0.15
  max_adjustment_points : ℚ := 10
deriving DecidableEq

/-- Embeds `ASSET_WEIGHTS`: weight `1.0` for every asset id, then the
`btc` entry is overwritten with weight `1.5`. -/
def ASSET_WEIGHTS : List (String × AssetWeightConfig) :=
  (ASSETS.map (fun e => (e.1, AssetWeightConfig.mk e.1 1))).map
    (fun e => if e.1 = "btc" then ("btc", AssetWeightConfig.mk "btc" 1.5) else e)

/-- Embeds `CATEGORY_WEIGHTS`. -/
def CATEGORY_WEIGHTS : List (AssetCategory × CategoryWeightConfig) :=
  [ (.EQUITIES, { category := .EQUITIES, weight := 0.35 }),
    (.CRYPTO, { category := .CRYPTO, weight := 0.20 }),
    (.GOLD, { category := .GOLD, weight := 0.10 }),
    (.BONDS, { category := .BONDS, weight := 0.10 }),
    (.HOUSING, { category := .HOUSING, weight := 0.10 }),
    (.USD, { category := .USD, weight := 0.15 }) ]

/-- Embeds `POLYMARKET_WEIGHTS = PolymarketWeights()`. -/
def POLYMARKET_WEIGHTS : PolymarketWeights := {}

/- ### src/services/polymarket_service.py -/

/-- Embeds the `PolymarketMarketSentiment` pydantic model. -/
structure PolymarketMarketSentiment where
  id : String
  name : String
  probability : ℚ
  impact : ℚ
deriving DecidableEq

/-- Embeds the `PolymarketSentiment` pydantic model (the service and the
confidence engine declare the same shape twice; one structure serves for
both). -/
structure PolymarketSentiment where
  markets : List (String × PolymarketMarketSentiment)
  aggregate_sentiment_score : ℚ
deriving DecidableEq

/-- Embeds `math.isfinite` on the model: every rational models a finite
float, so the predicate is identically `true` (NaN and the infinities have
no rational representative). -/
def isfinite (_ : ℚ) : Bool := true

/-- Embeds the cache key constant `POLYMARKET_CACHE_KEY`. -/
def POLYMARKET_CACHE_KEY : String := "polymarket_sentiment"

/-- Embeds the pure tail of `_fetch_polymarket_market`: the network fetch
and `outcomePrices` parsing are external, so the function receives the
parse result as `parts : Option (List ℚ)` (`none` models a failed fetch,
a missing field, or an unparseable payload, all of which return `None` in
the source).  The empty-list guard, the first-outcome selection, the
direction inversion and the double normalization follow the source body. -/
def _fetch_polymarket_market (config : PolymarketMarketConfig)
    (parts : Option (List ℚ)) : Option PolymarketMarketSentiment :=
  match parts with
  | none => none
  | some ps =>
    if ps = [] then none
    else
      let yes_price := ps.headD 0
      let prob_raw := normalize_polymarket_probability yes_price
      let prob_good :=
        if config.direction = PolymarketDirection.NEGATIVE then 1 - prob_raw
        else prob_raw
      let prob_good2 := normalize_polymarket_probability prob_good
      some { id := config.id, name := config.name,
             probability := prob_good2, impact := config.impact_weight }

/-- Embeds the aggregation loop of `get_polymarket_sentiment` (the cache
consult/store around it is modelled separately by the cache functions; this
is the body executed on a cache miss).  `cfgs` is the
`POLYMARKET_MARKETS.items()` sequence and `fetch` supplies, per market id,
the parsed `outcomePrices` handed to `_fetch_polymarket_market`. -/
def get_polymarket_sentiment
    (cfgs : List (String × PolymarketMarketConfig))
    (fetch : String → Option (List ℚ)) : PolymarketSentiment :=
  let acc := cfgs.foldl
    (fun (a : List (String × PolymarketMarketSentiment) × ℚ × ℚ) entry =>
      match _fetch_polymarket_market entry.2 (fetch entry.1) with
      | none => a
      | some sentiment =>
        let ms := a.1 ++ [(entry.1, sentiment)]
        if isfinite sentiment.probability ∧ sentiment.impact > 0 then
          (ms, a.2.1 + sentiment.probability * sentiment.impact,
           a.2.2 + sentiment.impact)
        else (ms, a.2.1, a.2.2))
    ([], 0, 0)
  let aggregate_prob := if acc.2.2 > 0 then acc.2.1 / acc.2.2 else 0.5
  { markets := acc.1, aggregate_sentiment_score := aggregate_prob * 100 }

/- ### src/services/confidence_engine.py -/

/-- Embeds the `AssetIndicators` pydantic model. -/
structure AssetIndicators where
  momentum : ℚ
  trend : ℚ
  volatility : ℚ
deriving DecidableEq

/-- Embeds the `AssetConfidence` pydantic model. -/
structure AssetConfidence where
  score : ℚ
  indicators : AssetIndicators
  raw_data : List (String × ℚ)
deriving DecidableEq

/-- Embeds the `CategoryConfidence` pydantic model. -/
structure CategoryConfidence where
  score : ℚ
  assets : List (String × AssetConfidence)
deriving DecidableEq

/-- Embeds the `ConfidenceBreakdown` pydantic model. -/
structure ConfidenceBreakdown where
  overall : ℚ
  categories : List (String × CategoryConfidence)
  polymarket_sentiment : PolymarketSentiment
deriving DecidableEq

/-- Embeds `_compute_asset_score`:
`to_percentage(0.5*momentum + 0.3*trend + 0.2*volatility)`. -/
def _compute_asset_score (indicators : Indicators) : ℚ :=
  to_percentage (0.5 * indicators.momentum + 0.3 * indicators.trend +
                 0.2 * indicators.volatility)

/-- Embeds `_weighted_average`: a loop over `scores.items()`, taking each
weight from `weights` with default `1.0`, returning `0.0` when the total
weight is zero. -/
def _weighted_average (scores weights : List (String × ℚ)) : ℚ :=
  let acc := scores.foldl
    (fun (a : ℚ × ℚ) kv =>
      let w := (weights.lookup kv.1).getD 1
      (a.1 + kv.2 * w, a.2 + w))
    (0, 0)
  if acc.2 = 0 then 0 else acc.1 / acc.2

/-- Embeds the body of `build_confidence_breakdown` executed on a cache
miss (the cache consult/store at entry and exit is modelled separately by
`SimpleCache`).  The external collaborators are passed explicitly:
`sqrtf` for `math.sqrt`, `histories` for `get_historical_series`, and
`fetched_sentiment` for the awaited result of `get_polymarket_sentiment`.
`asset_confidences[aid]` and `ASSET_WEIGHTS` lookups can only miss for ids
absent from `ASSETS`, which does not occur; the lookups use the same
defaults the source expresses (`1.0` for a missing weight). -/
def build_confidence_breakdown (sqrtf : ℚ → ℚ)
    (histories : String → List MarketDataPoint)
    (fetched_sentiment : PolymarketSentiment) : ConfidenceBreakdown :=
  let asset_confidences : List (String × AssetConfidence) :=
    ASSETS.map (fun e =>
      let series := histories e.1
      let latest_price := ((series.getLast?).map (fun p => p.price)).getD 0
      match compute_indicators sqrtf series with
      | none =>
        (e.1, { score := 50,
                indicators := { momentum := 0.5, trend := 0.5,
                                volatility := 0.5 },
                raw_data := [("latest_price", latest_price)] })
      | some indicators =>
        (e.1, { score := _compute_asset_score indicators,
                indicators := { momentum := indicators.momentum,
                                trend := indicators.trend,
                                volatility := indicators.volatility },
                raw_data := [("latest_price", latest_price)] }))
  let category_confidences : List (String × CategoryConfidence) :=
    CATEGORY_TO_ASSETS.map (fun ce =>
      let scores := ce.2.map (fun aid =>
        (aid, ((asset_confidences.lookup aid).map (fun ac => ac.score)).getD 0))
      let weights_in_cat := ce.2.map (fun aid =>
        (aid, ((ASSET_WEIGHTS.lookup aid).map (fun w => w.weight)).getD 1))
      let cat_score := _weighted_average scores weights_in_cat
      let cat_assets := ce.2.filterMap (fun aid =>
        (asset_confidences.lookup aid).map (fun ac => (aid, ac)))
      (ce.1.value, { score := cat_score, assets := cat_assets }))
  let polymarket_markets := fetched_sentiment.markets
  let agg_prob_0_1 :=
    if polymarket_markets ≠ [] then
      _weighted_average
        (polymarket_markets.map (fun m => (m.1, m.2.probability)))
        (polymarket_markets.map (fun m => (m.1, m.2.impact)))
    else 0.5
  let aggregate_sentiment_score := to_percentage agg_prob_0_1
  let polymarket_sentiment : PolymarketSentiment :=
    { markets := polymarket_markets,
      aggregate_sentiment_score := aggregate_sentiment_score }
  let cat_score_map : List (String × ℚ) :=
    CATEGORY_WEIGHTS.map (fun ce =>
      (ce.1.value,
       ((category_confidences.lookup ce.1.value).map
          (fun c => c.score)).getD 50))
  let cat_weight_map : List (String × ℚ) :=
    CATEGORY_WEIGHTS.map (fun ce => (ce.1.value, ce.2.weight))
  let base_overall := _weighted_average cat_score_map cat_weight_map
  let sentiment_deviation := (aggregate_sentiment_score - 50) / 50
  let adjustment := sentiment_deviation * POLYMARKET_WEIGHTS.max_adjustment_points
                    * POLYMARKET_WEIGHTS.overall_sentiment_weight
  let overall_score := max 0 (min 100 (base_overall + adjustment))
  { overall := overall_score,
    categories := category_confidences,
    polymarket_sentiment := polymarket_sentiment }

/- ### src/services/cache.py -/

/-- Embeds the `CacheItem` dataclass. -/
structure CacheItem (α : Type) where
  value : α
  expires_at : ℚ

/-- Embeds the `SimpleCache` class state: its `_store` dict. -/
structure SimpleCache (α : Type) where
  _store : String → Option (CacheItem α)

/-- Embeds `SimpleCache.get`: returns the stored value unless the entry is
missing or `item.expires_at < time.time()`, in which case the expired entry
is popped; returns the possibly mutated store alongside the result. -/
def SimpleCache.get {α : Type} (c : SimpleCache α) (key : String)
    (now : ℚ) : Option α × SimpleCache α :=
  match c._store key with
  | none => (none, c)
  | some item =>
    if item.expires_at < now then
      (none, ⟨fun k => if k = key then none else c._store k⟩)
    else (some item.value, c)

/-- Embeds `SimpleCache.set`: stores the value with
`expires_at = time.time() + ttl_seconds`. -/
def SimpleCache.set {α : Type} (c : SimpleCache α) (key : String) (value : α)
    (ttl_seconds : ℤ) (now : ℚ) : SimpleCache α :=
  ⟨fun k => if k = key then some ⟨value, now + ttl_seconds⟩ else c._store k⟩

/-- Embeds `SimpleCache.clear`. -/
def SimpleCache.clear {α : Type} (_ : SimpleCache α) : SimpleCache α :=
  ⟨fun _ => none⟩

/-- Embeds the second, module-level store `_CACHE`, whose entries are
`(expires_at, value)` pairs.  This dict is distinct from the `_store` of
the `SimpleCache` instance `cache`. -/
def CacheDict (α : Type) : Type := String → Option (ℚ × α)

/-- Embeds `cache_get` (operating on `_CACHE`): expired entries
(`expires_at < now`) are popped and `None` is returned. -/
def cache_get {α : Type} (c : CacheDict α) (key : String)
    (now : ℚ) : Option α × CacheDict α :=
  match c key with
  | none => (none, c)
  | some entry =>
    if entry.1 < now then
      (none, fun k => if k = key then none else c k)
    else (some entry.2, c)

/-- Embeds `cache_set` (operating on `_CACHE`). -/
def cache_set {α : Type} (c : CacheDict α) (key : String) (value : α)
    (ttl_seconds : ℤ) (now : ℚ) : CacheDict α :=
  fun k => if k = key then some (now + ttl_seconds, value) else c k

/-- Embeds `cache_clear` (operating on `_CACHE`). -/
def cache_clear {α : Type} (_ : CacheDict α) : CacheDict α :=
  fun _ => none

/- ### Supporting lemmas -/

/-- Clipping never exceeds the upper bound when the bounds are ordered. -/
lemma _clip_le_right (v mn mx : ℚ) (h : mn ≤ mx) : _clip v mn mx ≤ mx :=
  max_le h (min_le_left _ _)

/-- Clipping never goes below the lower bound. -/
lemma _clip_ge_left (v mn mx : ℚ) : mn ≤ _clip v mn mx :=
  le_max_left _ _

/-- With strictly ordered bounds, `normalize_momentum` succeeds and lands
in `[0, 1]`. -/
lemma normalize_momentum_mem (x mn mx : ℚ) (h : mn < mx) :
    ∃ v, normalize_momentum x mn mx = some v ∧ 0 ≤ v ∧ v ≤ 1 := by
  have hd : mx - mn ≠ 0 := sub_ne_zero.mpr h.ne'
  have hpos : (0 : ℚ) < mx - mn := by linarith
  refine ⟨_, by rw [normalize_momentum, if_neg hd], ?_, ?_⟩
  · exact div_nonneg (by have := _clip_ge_left x mn mx; linarith) hpos.le
  · rw [div_le_one hpos]
    have := _clip_le_right x mn mx h.le
    linarith

/-- With strictly ordered bounds, `normalize_trend` succeeds and lands in
`[0, 1]`. -/
lemma normalize_trend_mem (x mn mx : ℚ) (h : mn < mx) :
    ∃ v, normalize_trend x mn mx = some v ∧ 0 ≤ v ∧ v ≤ 1 := by
  have hd : mx - mn ≠ 0 := sub_ne_zero.mpr h.ne'
  have hpos : (0 : ℚ) < mx - mn := by linarith
  refine ⟨_, by rw [normalize_trend, if_neg hd], ?_, ?_⟩
  · exact div_nonneg (by have := _clip_ge_left x mn mx; linarith) hpos.le
  · rw [div_le_one hpos]
    have := _clip_le_right x mn mx h.le
    linarith

/-- With strictly ordered bounds, `normalize_volatility` succeeds and lands
in `[0, 1]` for either value of the inversion flag. -/
lemma normalize_volatility_mem (x lo hi : ℚ) (invert : Bool) (h : lo < hi) :
    ∃ v, normalize_volatility x lo hi invert = some v ∧ 0 ≤ v ∧ v ≤ 1 := by
  have hd : hi - lo ≠ 0 := sub_ne_zero.mpr h.ne'
  have hpos : (0 : ℚ) < hi - lo := by linarith
  have hraw0 : 0 ≤ (_clip x lo hi - lo) / (hi - lo) :=
    div_nonneg (by have := _clip_ge_left x lo hi; linarith) hpos.le
  have hraw1 : (_clip x lo hi - lo) / (hi - lo) ≤ 1 := by
    rw [div_le_one hpos]
    have := _clip_le_right x lo hi h.le
    linarith
  refine ⟨_, by rw [normalize_volatility, if_neg hd], ?_, ?_⟩
  · cases invert <;> simp <;> linarith
  · cases invert <;> simp <;> linarith

/- ### Claim theorems -/

/-- C1, counterexample: at degenerate bounds `min == max` (here `0 == 0`)
neither clamped-linear normalizer returns `0.5`; both hit the raising
float division (`none` in the model), refuting the claimed neutral
fallback. -/
theorem normalizers_degenerate_cex : normalize_momentum 0 0 0 ≠ some (1/2) ∧
    normalize_trend 0 0 0 ≠ some (1/2) := by
  constructor <;> simp [normalize_momentum, normalize_trend]

/-- C1, amended: for every input and every degenerate bound pair
`min == max`, `normalize_momentum` and `normalize_trend` raise
`ZeroDivisionError` (modelled by `none`); they never return `0.5` or any
other value in that case. -/
theorem normalizers_degenerate_raise (x b : ℚ) :
    normalize_momentum x b b = none ∧ normalize_trend x b b = none := by
  constructor <;> simp [normalize_momentum, normalize_trend]

/-- C3, counterexample: `normalize_polymarket_probability 1.5` is not `1`;
the input is above `1`, so it is divided by `100` and comes out as
`0.015`. -/
theorem normalize_probability_cex : normalize_polymarket_probability (3/2) ≠ 1 := by
  norm_num [normalize_polymarket_probability, _clip]

/-- C3, amended: `normalize_polymarket_probability 150 = 1`, and every
input above `1` is divided by `100` and then clipped into `[0, 1]`, so
`normalize_polymarket_probability 1.5 = 0.015`, not `1`. -/
theorem normalize_probability_scaling :
    normalize_polymarket_probability 150 = 1 ∧
    normalize_polymarket_probability (3/2) = 3/200 ∧
    ∀ p : ℚ, 1 < p → normalize_polymarket_probability p = _clip (p / 100) 0 1 := by
  refine ⟨by norm_num [normalize_polymarket_probability, _clip],
    by norm_num [normalize_polymarket_probability, _clip], ?_⟩
  intro p hp
  simp [normalize_polymarket_probability, hp]

/-- Witness for the amended C3 at the concrete input `2`. -/
theorem normalize_probability_scaling_witness : (1 : ℚ) < 2 ∧
    normalize_polymarket_probability 2 = _clip (2 / 100) 0 1 :=
  ⟨by norm_num, normalize_probability_scaling.2.2 2 (by norm_num)⟩

/-- C6: `compute_indicators` returns `none` exactly on series of length
`0` or `1`, and on longer series returns indicators whose momentum, trend
and volatility all lie in `[0, 1]` (for every model of `math.sqrt`). -/
theorem compute_indicators_spec (sqrtf : ℚ → ℚ) (series : List MarketDataPoint) :
    (series.length < 2 → compute_indicators sqrtf series = none) ∧
    (2 ≤ series.length → ∃ ind, compute_indicators sqrtf series = some ind ∧
      0 ≤ ind.momentum ∧ ind.momentum ≤ 1 ∧ 0 ≤ ind.trend ∧ ind.trend ≤ 1 ∧
      0 ≤ ind.volatility ∧ ind.volatility ≤ 1) := by
  constructor
  · intro h
    unfold compute_indicators
    rw [if_pos h]
  · intro h
    have h2 : ¬ series.length < 2 := not_lt.mpr h
    obtain ⟨m, hm, hm0, hm1⟩ := normalize_momentum_mem
      (_percent_change ((series.map (fun p => p.price)).headD 0)
        ((series.map (fun p => p.price)).getLastD 0)) (-0.20) 0.20 (by norm_num)
    obtain ⟨t, ht, ht0, ht1⟩ := normalize_trend_mem
      (if _moving_average (series.map (fun p => p.price)) = 0 then 1
       else (series.map (fun p => p.price)).getLastD 0 /
            _moving_average (series.map (fun p => p.price))) 0.9 1.1 (by norm_num)
    obtain ⟨v, hv, hv0, hv1⟩ := normalize_volatility_mem
      (_stdev sqrtf
        (((series.map (fun p => p.price)).zip
            (series.map (fun p => p.price)).tail).map
          (fun ab => _percent_change ab.1 ab.2))) 0.05 0.40 true (by norm_num)
    refine ⟨⟨m, t, v⟩, ?_, hm0, hm1, ht0, ht1, hv0, hv1⟩
    unfold compute_indicators
    rw [if_neg h2]
    simp only [hm, ht, hv]

/-- Witness for C6 at a two-point series (and the empty series for the
short-series half). -/
theorem compute_indicators_spec_witness :
    (compute_indicators (fun _ => 0) [] = none) ∧
    (∃ ind, compute_indicators (fun _ => 0)
        [⟨0, 1⟩, ⟨1, 1⟩] = some ind ∧
      0 ≤ ind.momentum ∧ ind.momentum ≤ 1 ∧ 0 ≤ ind.trend ∧ ind.trend ≤ 1 ∧
      0 ≤ ind.volatility ∧ ind.volatility ≤ 1) :=
  ⟨(compute_indicators_spec (fun _ => 0) []).1 (by norm_num),
   (compute_indicators_spec (fun _ => 0) [⟨0, 1⟩, ⟨1, 1⟩]).2 (by norm_num)⟩

/-- When every market that survives its fetch fails the
`isfinite`-and-positive-impact guard, the aggregation loop of
`get_polymarket_sentiment` leaves both running sums at `0` (markets that
do not survive contribute nothing either). -/
lemma sentiment_fold_sums (fetch : String → Option (List ℚ)) :
    ∀ (cfgs : List (String × PolymarketMarketConfig))
      (ms : List (String × PolymarketMarketSentiment)),
    (∀ entry ∈ cfgs, ∀ s : PolymarketMarketSentiment,
      _fetch_polymarket_market entry.2 (fetch entry.1) = some s →
      s.impact ≤ 0) →
    (cfgs.foldl
      (fun (a : List (String × PolymarketMarketSentiment) × ℚ × ℚ) entry =>
        match _fetch_polymarket_market entry.2 (fetch entry.1) with
        | none => a
        | some sentiment =>
          let ms := a.1 ++ [(entry.1, sentiment)]
          if isfinite sentiment.probability ∧ sentiment.impact > 0 then
            (ms, a.2.1 + sentiment.probability * sentiment.impact,
             a.2.2 + sentiment.impact)
          else (ms, a.2.1, a.2.2))
      (ms, 0, 0)).2 = (0, 0) := by
  intro cfgs
  induction cfgs with
  | nil => intro ms h; rfl
  | cons e t ih =>
    intro ms h
    rw [List.foldl_cons]
    rcases hfe : _fetch_polymarket_market e.2 (fetch e.1) with _ | s
    · simp only [hfe]
      exact ih ms (fun entry hm s hs => h entry (List.mem_cons_of_mem _ hm) s hs)
    · have himp : s.impact ≤ 0 := h e (List.mem_cons_self e t) s hfe
      have hguard : ¬ (isfinite s.probability = true ∧ s.impact > 0) := by
        rintro ⟨-, hgt⟩
        exact absurd himp (not_le.mpr hgt)
      simp only [hfe, if_neg hguard]
      exact ih _ (fun entry hm s2 hs => h entry (List.mem_cons_of_mem _ hm) s2 hs)

/-- C2, counterexample: an aggregation whose total weight is `0` (here one
entry of weight `0`) returns `0.0` from `_weighted_average`, not the
documented neutral `50` (nor `0.5`). -/
theorem weighted_average_zero_cex :
    _weighted_average [("a", 40)] [("a", 0)] = 0 ∧
    _weighted_average [("a", 40)] [("a", 0)] ≠ 50 ∧
    _weighted_average [("a", 40)] [("a", 0)] ≠ 1/2 := by
  have h : _weighted_average [("a", 40)] [("a", 0)] = 0 := by
    simp [_weighted_average, List.lookup]
  refine ⟨h, ?_, ?_⟩ <;> rw [h] <;> norm_num

/-- C2, amended: a `_weighted_average` aggregation with total weight `0`
(including a category with no members) returns `0.0`, not the neutral
constant; only the sentiment aggregate of `get_polymarket_sentiment`
falls back to neutral (`0.5`, scored `50`) when no surviving market
contributes positive impact — whether because no market survives its
fetch at all, or because every surviving market fails the
`isfinite`-and-positive-impact guard (non-positive impact weight) and so
leaves the total weight at `0`.  No branch crashes: all three are total
functions. -/
theorem aggregation_zero_weight_fallbacks :
    (∀ scores weights : List (String × ℚ),
      (scores.foldl (fun (a : ℚ × ℚ) kv =>
        (a.1 + kv.2 * ((weights.lookup kv.1).getD 1),
         a.2 + ((weights.lookup kv.1).getD 1))) (0, 0)).2 = 0 →
      _weighted_average scores weights = 0) ∧
    (∀ weights : List (String × ℚ), _weighted_average [] weights = 0) ∧
    (∀ (cfgs : List (String × PolymarketMarketConfig))
       (fetch : String → Option (List ℚ)),
      (∀ entry ∈ cfgs, ∀ s : PolymarketMarketSentiment,
        _fetch_polymarket_market entry.2 (fetch entry.1) = some s →
        s.impact ≤ 0) →
      (get_polymarket_sentiment cfgs fetch).aggregate_sentiment_score = 50) := by
  refine ⟨?_, ?_, ?_⟩
  · intro scores weights h
    simp only [_weighted_average]
    rw [if_pos h]
  · intro weights
    simp [_weighted_average]
  · intro cfgs fetch h
    have hsums := sentiment_fold_sums fetch cfgs [] h
    simp only [get_polymarket_sentiment]
    rw [hsums]
    norm_num

/-- Witness for the amended C2: a one-entry zero-weight aggregation, and
a sentiment aggregation whose single market survives its fetch with
probability `0.5` but carries impact weight `0`, so the fallback `50`
applies. -/
theorem aggregation_zero_weight_fallbacks_witness :
    _weighted_average [("a", 40)] [("a", 0)] = 0 ∧
    (get_polymarket_sentiment
      [("m", { id := "m", name := "M", slug := "s",
               direction := .POSITIVE, impact_weight := 0 })]
      (fun _ => some [1/2])).aggregate_sentiment_score = 50 :=
  ⟨aggregation_zero_weight_fallbacks.1 [("a", 40)] [("a", 0)]
     (by simp [List.lookup]),
   aggregation_zero_weight_fallbacks.2.2
     [("m", { id := "m", name := "M", slug := "s",
              direction := .POSITIVE, impact_weight := 0 })]
     (fun _ => some [1/2])
     (by
       intro entry hm s hs
       simp only [List.mem_singleton] at hm
       subst hm
       norm_num [_fetch_polymarket_market, normalize_polymarket_probability,
         _clip] at hs
       rw [← hs])⟩

/-- The sentiment block rebuilt inside `build_confidence_breakdown`
keeps the incoming markets dict unchanged and recomputes the aggregate
with a plain `_weighted_average` over all markets (no finiteness or
positivity filter). -/
lemma build_breakdown_sentiment_eq (sqrtf : ℚ → ℚ)
    (histories : String → List MarketDataPoint) (fs : PolymarketSentiment) :
    (build_confidence_breakdown sqrtf histories fs).polymarket_sentiment =
      { markets := fs.markets,
        aggregate_sentiment_score := to_percentage
          (if fs.markets ≠ [] then
            _weighted_average
              (fs.markets.map (fun m => (m.1, m.2.probability)))
              (fs.markets.map (fun m => (m.1, m.2.impact)))
          else 0.5) } := rfl

/-- C5, counterexample: in the sentiment aggregate recomputed inside
`build_confidence_breakdown` there is no filter, so a market with
non-positive impact weight (here `-0.5`) does contribute to both sums:
with it the aggregate score is `100`, without it `50`. -/
theorem engine_sentiment_no_filter_cex :
    (build_confidence_breakdown (fun _ => 0) (fun _ => [])
      { markets := [("m1", { id := "m1", name := "M1",
                             probability := 1/2, impact := 1 }),
                    ("m2", { id := "m2", name := "M2",
                             probability := 0, impact := -(1/2) })],
        aggregate_sentiment_score := 0
      }).polymarket_sentiment.aggregate_sentiment_score = 100 ∧
    (build_confidence_breakdown (fun _ => 0) (fun _ => [])
      { markets := [("m1", { id := "m1", name := "M1",
                             probability := 1/2, impact := 1 })],
        aggregate_sentiment_score := 0
      }).polymarket_sentiment.aggregate_sentiment_score = 50 := by
  constructor <;>
    · rw [build_breakdown_sentiment_eq]
      simp [_weighted_average, List.lookup, to_percentage, _clip]
      norm_num

/-- C5, amended: in the aggregate computed by `get_polymarket_sentiment`
itself, a fetched market failing the `isfinite`-and-positive-impact guard
(here: non-positive impact; a non-finite probability has no rational
model, and the double clamp makes every stored probability finite) is
recorded in the markets dict but contributes neither to the weighted
probability sum nor to the total weight: appending such a market changes
the markets dict only and leaves the aggregate score unchanged.  The
aggregate recomputed inside `build_confidence_breakdown` applies no such
guard (see its counterexample). -/
theorem sentiment_guard_excludes (cfgs : List (String × PolymarketMarketConfig))
    (mid : String) (cfg : PolymarketMarketConfig)
    (fetch : String → Option (List ℚ)) (s : PolymarketMarketSentiment)
    (hf : _fetch_polymarket_market cfg (fetch mid) = some s)
    (himp : s.impact ≤ 0) :
    (get_polymarket_sentiment (cfgs ++ [(mid, cfg)]) fetch).markets
      = (get_polymarket_sentiment cfgs fetch).markets ++ [(mid, s)] ∧
    (get_polymarket_sentiment (cfgs ++ [(mid, cfg)]) fetch).aggregate_sentiment_score
      = (get_polymarket_sentiment cfgs fetch).aggregate_sentiment_score := by
  have hguard : ¬ (isfinite s.probability = true ∧ s.impact > 0) := by
    rintro ⟨-, h⟩
    exact absurd himp (not_le.mpr h)
  constructor <;>
    simp only [get_polymarket_sentiment, List.foldl_append, List.foldl_cons,
      List.foldl_nil, hf, if_neg hguard]

/-- Witness for the amended C5: one market with impact weight `-1`. -/
theorem sentiment_guard_excludes_witness :
    (get_polymarket_sentiment
        ([] ++ [("m", { id := "m", name := "M", slug := "s",
                        direction := .POSITIVE, impact_weight := -1 })])
        (fun _ => some [1/2])).markets
      = (get_polymarket_sentiment [] (fun _ => some [1/2])).markets ++
        [("m", { id := "m", name := "M", probability := 1/2, impact := -1 })] ∧
    (get_polymarket_sentiment
        ([] ++ [("m", { id := "m", name := "M", slug := "s",
                        direction := .POSITIVE, impact_weight := -1 })])
        (fun _ => some [1/2])).aggregate_sentiment_score
      = (get_polymarket_sentiment []
          (fun _ => some [1/2])).aggregate_sentiment_score :=
  sentiment_guard_excludes [] "m"
    { id := "m", name := "M", slug := "s",
      direction := .POSITIVE, impact_weight := -1 }
    (fun _ => some [1/2])
    { id := "m", name := "M", probability := 1/2, impact := -1 }
    (by norm_num [_fetch_polymarket_market, normalize_polymarket_probability,
      _clip])
    (by norm_num)

/-- C7: for a market configured with negative direction, the stored
probability is the re-normalized complement `1 - p` of the normalized raw
probability; in particular raw probability `0.9` is stored as `0.1`. -/
theorem negative_direction_inverts :
    (∀ (cfg : PolymarketMarketConfig) (ps : List ℚ),
      cfg.direction = PolymarketDirection.NEGATIVE → ps ≠ [] →
      (_fetch_polymarket_market cfg (some ps)).map (fun s => s.probability)
        = some (normalize_polymarket_probability
            (1 - normalize_polymarket_probability (ps.headD 0)))) ∧
    (∀ cfg : PolymarketMarketConfig,
      cfg.direction = PolymarketDirection.NEGATIVE →
      (_fetch_polymarket_market cfg (some [9/10])).map (fun s => s.probability)
        = some (1/10)) := by
  have h1 : ∀ (cfg : PolymarketMarketConfig) (ps : List ℚ),
      cfg.direction = PolymarketDirection.NEGATIVE → ps ≠ [] →
      (_fetch_polymarket_market cfg (some ps)).map (fun s => s.probability)
        = some (normalize_polymarket_probability
            (1 - normalize_polymarket_probability (ps.headD 0))) := by
    intro cfg ps hdir hps
    simp [_fetch_polymarket_market, if_neg hps, hdir]
  refine ⟨h1, ?_⟩
  intro cfg hdir
  rw [h1 cfg [9/10] hdir (by norm_num)]
  norm_num [normalize_polymarket_probability, _clip]

/-- Witness for C7 at a concrete negative-direction market config. -/
theorem negative_direction_inverts_witness :
    (_fetch_polymarket_market
        { id := "m", name := "M", slug := "s",
          direction := .NEGATIVE, impact_weight := 1 }
        (some [9/10])).map (fun s => s.probability) = some (1/10) :=
  negative_direction_inverts.2
    { id := "m", name := "M", slug := "s",
      direction := .NEGATIVE, impact_weight := 1 } rfl

/-- C8: `set(key, v, ttl)` followed immediately by `get(key)` returns `v`;
once the TTL has strictly elapsed, `get(key)` returns `none` and removes
the entry, so every subsequent `get(key)` also returns `none`.  Proved for
both cache implementations in the module (the `SimpleCache` class and the
`cache_get`/`cache_set` functions over the module-level dict). -/
theorem cache_set_then_get {α : Type} (c : SimpleCache α) (d : CacheDict α)
    (key : String) (v : α) (ttl : ℤ) (now now2 now3 : ℚ) (httl : 0 ≤ ttl) :
    ((c.set key v ttl now).get key now).1 = some v ∧
    (cache_get (cache_set d key v ttl now) key now).1 = some v ∧
    (now + ttl < now2 →
      ((c.set key v ttl now).get key now2).1 = none ∧
      (((c.set key v ttl now).get key now2).2.get key now3).1 = none ∧
      (cache_get (cache_set d key v ttl now) key now2).1 = none ∧
      (cache_get (cache_get (cache_set d key v ttl now) key now2).2
          key now3).1 = none) := by
  have httlq : (0 : ℚ) ≤ (ttl : ℚ) := by exact_mod_cast httl
  have hnotexp : ¬ (now + (ttl : ℚ) < now) := by linarith
  refine ⟨?_, ?_, ?_⟩
  · simp [SimpleCache.get, SimpleCache.set, hnotexp]
  · simp [cache_get, cache_set, hnotexp]
  · intro hlate
    refine ⟨?_, ?_, ?_, ?_⟩
    · simp [SimpleCache.get, SimpleCache.set, hlate]
    · simp [SimpleCache.get, SimpleCache.set, hlate]
    · simp [cache_get, cache_set, hlate]
    · simp [cache_get, cache_set, hlate]

/-- Witness for C8 with `ttl = 1`, stored at time `0`, expired read at
time `2`, follow-up read at time `5`. -/
theorem cache_set_then_get_witness :
    (((⟨fun _ => none⟩ : SimpleCache ℚ).set "k" 7 1 0).get "k" 0).1 = some 7 ∧
    (cache_get (cache_set (fun _ => none : CacheDict ℚ) "k" 7 1 0)
      "k" 0).1 = some 7 ∧
    ((((⟨fun _ => none⟩ : SimpleCache ℚ).set "k" 7 1 0).get "k" 2).1 = none ∧
     ((((⟨fun _ => none⟩ : SimpleCache ℚ).set "k" 7 1 0).get "k" 2).2.get
        "k" 5).1 = none ∧
     (cache_get (cache_set (fun _ => none : CacheDict ℚ) "k" 7 1 0)
        "k" 2).1 = none ∧
     (cache_get (cache_get (cache_set (fun _ => none : CacheDict ℚ) "k" 7 1 0)
        "k" 2).2 "k" 5).1 = none) := by
  have h := cache_set_then_get (⟨fun _ => none⟩ : SimpleCache ℚ)
    (fun _ => none : CacheDict ℚ) "k" 7 1 0 2 5 (by norm_num)
  exact ⟨h.1, h.2.1, h.2.2 (by norm_num)⟩

/-- C9, counterexample: the breakdown, history and latest-price entries
live in the `SimpleCache` instance while the polymarket sentiment entry
lives in the separate module-level dict; after `clear()` on the
`SimpleCache` store the former keys are all absent but the sentiment key
still returns its value. -/
theorem cache_clear_two_stores_cex :
    ((((((⟨fun _ => none⟩ : SimpleCache ℚ).set "confidence_breakdown:30" 7 30
        0).set "history:spy:30" 8 60 0).set "latest_price:spy" 9 60
        0).clear).get "confidence_breakdown:30" 0).1 = none ∧
    ((((((⟨fun _ => none⟩ : SimpleCache ℚ).set "confidence_breakdown:30" 7 30
        0).set "history:spy:30" 8 60 0).set "latest_price:spy" 9 60
        0).clear).get "history:spy:30" 0).1 = none ∧
    ((((((⟨fun _ => none⟩ : SimpleCache ℚ).set "confidence_breakdown:30" 7 30
        0).set "history:spy:30" 8 60 0).set "latest_price:spy" 9 60
        0).clear).get "latest_price:spy" 0).1 = none ∧
    (cache_get
      (cache_set (fun _ => none : CacheDict ℚ) POLYMARKET_CACHE_KEY 42 60 0)
      POLYMARKET_CACHE_KEY 0).1 = some 42 := by
  refine ⟨?_, ?_, ?_, ?_⟩ <;>
    norm_num [SimpleCache.get, SimpleCache.set, SimpleCache.clear,
      cache_get, cache_set, POLYMARKET_CACHE_KEY]

/-- C9, amended: the repository has two distinct stores, not one:
`clear()` on the `SimpleCache` instance (which holds the breakdown,
history and latest-price entries) empties every key of that store, but
the polymarket sentiment entry is kept in the separate module-level
`_CACHE` dict and is still returned afterwards. -/
theorem cache_clear_two_stores {α β : Type} (c : SimpleCache α)
    (d : CacheDict β) (key : String) (v : β) (ttl : ℤ) (now : ℚ)
    (httl : 0 ≤ ttl) :
    ((c.clear).get key now).1 = none ∧
    (cache_get (cache_set d POLYMARKET_CACHE_KEY v ttl now)
      POLYMARKET_CACHE_KEY now).1 = some v := by
  have httlq : (0 : ℚ) ≤ (ttl : ℚ) := by exact_mod_cast httl
  have hnotexp : ¬ (now + (ttl : ℚ) < now) := by linarith
  constructor
  · simp [SimpleCache.get, SimpleCache.clear]
  · simp [cache_get, cache_set, hnotexp]

/-- Witness for the amended C9. -/
theorem cache_clear_two_stores_witness :
    (((⟨fun _ => none⟩ : SimpleCache ℚ).clear).get "history:spy:30" 0).1 =
      none ∧
    (cache_get (cache_set (fun _ => none : CacheDict ℚ)
      POLYMARKET_CACHE_KEY 42 60 0) POLYMARKET_CACHE_KEY 0).1 = some 42 :=
  cache_clear_two_stores (⟨fun _ => none⟩ : SimpleCache ℚ)
    (fun _ => none : CacheDict ℚ) "history:spy:30" 42 60 0 (by norm_num)

/-- C10: expiry is strict at the boundary for both implementations: a
`get` at exactly the entry's expiry time still returns the value; the
entry is removed and `none` returned only when the current time strictly
exceeds the expiry time. -/
theorem cache_expiry_boundary {α : Type} (c : SimpleCache α) (d : CacheDict α)
    (key : String) (v : α) (exp now : ℚ)
    (hc : c._store key = some ⟨v, exp⟩) (hd : d key = some (exp, v)) :
    (c.get key exp).1 = some v ∧
    (cache_get d key exp).1 = some v ∧
    (exp < now →
      (c.get key now).1 = none ∧ ((c.get key now).2)._store key = none ∧
      (cache_get d key now).1 = none ∧ ((cache_get d key now).2) key = none) := by
  refine ⟨?_, ?_, ?_⟩
  · simp [SimpleCache.get, hc]
  · simp [cache_get, hd]
  · intro hlate
    refine ⟨?_, ?_, ?_, ?_⟩ <;> simp [SimpleCache.get, cache_get, hc, hd, hlate]

/-- Witness for C10: an entry expiring at time `10`, read at times `10`
and `11`. -/
theorem cache_expiry_boundary_witness :
    (((⟨fun k => if k = "k" then some ⟨5, 10⟩ else none⟩ : SimpleCache ℚ).get
        "k" 10).1 = some 5) ∧
    ((cache_get (fun k => if k = "k" then some (10, 5) else none : CacheDict ℚ)
        "k" 10).1 = some 5) ∧
    ((((⟨fun k => if k = "k" then some ⟨5, 10⟩ else none⟩ : SimpleCache ℚ).get
        "k" 11).1 = none) ∧
     (((⟨fun k => if k = "k" then some ⟨5, 10⟩ else none⟩ : SimpleCache ℚ).get
        "k" 11).2._store "k" = none) ∧
     ((cache_get (fun k => if k = "k" then some (10, 5) else none : CacheDict ℚ)
        "k" 11).1 = none) ∧
     ((cache_get (fun k => if k = "k" then some (10, 5) else none : CacheDict ℚ)
        "k" 11).2 "k" = none)) := by
  have h := cache_expiry_boundary
    (⟨fun k => if k = "k" then some ⟨5, 10⟩ else none⟩ : SimpleCache ℚ)
    (fun k => if k = "k" then some (10, 5) else none : CacheDict ℚ)
    "k" 5 10 11 (by norm_num) (by norm_num)
  exact ⟨h.1, h.2.1, h.2.2 (by norm_num)⟩

/-- C4: the overall score equals
`clamp(base + ((sentimentScore - 50) / 50) * maxAdjustmentPoints *
sentimentWeight, 0, 100)` where `base` is the category-weight weighted
mean of the category scores (missing categories read back as `50`); and
with every asset series empty (all category scores `50`, hence
`base = 50`) and one market of probability `1` and impact `1` (aggregate
sentiment score `100`), the configured constants `10` and `0.15` give
`overall = 51.5`. -/
theorem overall_score_formula :
    (∀ (sqrtf : ℚ → ℚ) (histories : String → List MarketDataPoint)
       (fs : PolymarketSentiment),
      (build_confidence_breakdown sqrtf histories fs).overall =
        max 0 (min 100 (
          _weighted_average
            (CATEGORY_WEIGHTS.map (fun ce => (ce.1.value,
              (((build_confidence_breakdown sqrtf histories fs).categories.lookup
                  ce.1.value).map (fun c => c.score)).getD 50)))
            (CATEGORY_WEIGHTS.map (fun ce => (ce.1.value, ce.2.weight)))
          + ((build_confidence_breakdown sqrtf histories
                fs).polymarket_sentiment.aggregate_sentiment_score - 50) / 50
            * POLYMARKET_WEIGHTS.max_adjustment_points
            * POLYMARKET_WEIGHTS.overall_sentiment_weight))) ∧
    (build_confidence_breakdown (fun _ => 0) (fun _ => [])
      { markets := [("m", { id := "m", name := "M",
                            probability := 1, impact := 1 })],
        aggregate_sentiment_score := 0
      }).polymarket_sentiment.aggregate_sentiment_score = 100 ∧
    (build_confidence_breakdown (fun _ => 0) (fun _ => [])
      { markets := [("m", { id := "m", name := "M",
                            probability := 1, impact := 1 })],
        aggregate_sentiment_score := 0 }).overall = 103/2 := by
  refine ⟨fun _ _ _ => rfl, ?_, ?_⟩
  · rw [build_breakdown_sentiment_eq]
    simp [_weighted_average, List.lookup, to_percentage, _clip]
  · simp [build_confidence_breakdown, compute_indicators, ASSETS,
      CATEGORY_TO_ASSETS, _setdefault_append, ASSET_WEIGHTS, CATEGORY_WEIGHTS,
      POLYMARKET_WEIGHTS, AssetCategory.value, _weighted_average, List.lookup,
      to_percentage, _clip, min_def, max_def]
    norm_num
